import Mathlib

/-!
Verification of the rust-debugger-api crate (src/src/lib.rs) against its
specification. The crate is an API surface: every method body in the
source is a stub, so the embedding below takes types and enums directly
from the source, and models method behaviour from the doc comments in the
source and, where those are silent, from the specification. Definitions
whose doc comment starts with "Modelled from the spec:" embed behaviour
that the source leaves unimplemented.
-/

namespace DebuggerApi

/-- The Error enum exactly as declared in src/src/lib.rs lines 4-29: an
enum describing why a method failed, with eight payload-free variants. -/
inductive Error where
  | DebuggeeWouldRun
  | EnvironmentNotDebuggee
  | FrameNotDebuggee
  | ObjectNotExtensible
  | ObjectNotGlobal
  | OffsetNotValid
  | PropertyNotConfigurable
  | VariableNotFound
deriving DecidableEq, Repr, Fintype

/-- Fallible, the Result alias from lib.rs line 32. -/
abbrev Fallible (α : Type) := Except Error α

/-- The Value enum from lib.rs lines 37-44. Object handles are modelled as
numeric ids into the debuggee heap, and the f64 payload of Number is
modelled by its 64-bit pattern (no claim computes with numbers). -/
inductive Value where
  | Undefined
  | Null
  | Boolean (b : Bool)
  | String (s : String)
  | Number (bits : Nat)
  | Object (id : Nat)
deriving DecidableEq, Repr

/-- The CompletionValue enum from lib.rs lines 47-56. -/
inductive CompletionValue where
  | Return (v : Value)
  | Throw (v : Value)
  | Terminate
deriving DecidableEq, Repr

/-- ResumptionValue, the Option alias from lib.rs line 59. -/
abbrev ResumptionValue := Option CompletionValue

/-- The EnvironmentType enum from lib.rs lines 62-71. -/
inductive EnvironmentType where
  | Declarative
  | Object
  | With
deriving DecidableEq, Repr

/-- The FrameImplementation enum from lib.rs lines 198-207. -/
inductive FrameImplementation where
  | Interpreter
  | Baseline
  | Ion
deriving DecidableEq, Repr

/-- The FrameType enum from lib.rs lines 210-222. -/
inductive FrameType where
  | Call
  | Eval
  | Global
  | Module
deriving DecidableEq, Repr

/-- Modelled from the spec: the nine-kind Error taxonomy stated in section
3 of the specification, which lists ObjectNotCallable as a kind in
addition to the eight that the source enum declares. Used only to compare
the spec taxonomy with the source taxonomy. -/
inductive ErrorSpec where
  | DebuggeeWouldRun
  | EnvironmentNotDebuggee
  | FrameNotDebuggee
  | ObjectNotExtensible
  | ObjectNotGlobal
  | OffsetNotValid
  | PropertyNotConfigurable
  | VariableNotFound
  | ObjectNotCallable
deriving DecidableEq, Repr, Fintype

/-- Association lookup with propositional key equality, modelling lookup
in a BTreeMap or in a set of uniquely named bindings. -/
def mapFind {α β : Type} [DecidableEq α] (key : α) : List (α × β) → Option β
  | [] => none
  | (k, v) :: rest => if k = key then some v else mapFind key rest

/-- The state of a wrapped lexical environment. The Environment struct at
lib.rs line 74 is an opaque wrapper; the observable state modelled here is
the one its doc comments describe: whether it is a debuggee environment
(lib.rs 118-119), whether the reflected object is a proxy (the
DebuggeeWouldRun cases), its type, and its uniquely named bindings. -/
structure EnvironmentState where
  debuggee : Bool
  isProxy : Bool
  envType : EnvironmentType
  bindings : List (String × Value)

/-- Modelled from the spec: the per-environment predicate that the doc
comment of Environment::is_inspectable (lib.rs 118-122) describes, namely
whether the wrapped environment is a debuggee environment. Note that the
source signature of is_inspectable takes no self parameter, so the source
function cannot actually depend on this state. -/
def Environment.inspectable (e : EnvironmentState) : Bool :=
  e.debuggee

/-- Modelled from the spec: the body of Environment::get_variable
(lib.rs 103-116) is unimplemented. Per its doc comment it returns
EnvironmentNotDebuggee when the wrapped environment is not a debuggee
environment, DebuggeeWouldRun when the reflected object is a proxy, and
otherwise the value bound to the name, or Undefined when there is no such
variable. -/
def Environment.get_variable (e : EnvironmentState) (name : String) : Fallible Value :=
  if e.debuggee = false then .error .EnvironmentNotDebuggee
  else if e.isProxy then .error .DebuggeeWouldRun
  else
    match mapFind name e.bindings with
    | some v => .ok v
    | none => .ok .Undefined

/-- Modelled from the spec: the body of Environment::names (lib.rs
124-135) is unimplemented. Per its doc comment it returns the names of the
variables bound by the wrapped environment, with the same two error cases
as get_variable. -/
def Environment.names (e : EnvironmentState) : Fallible (List String) :=
  if e.debuggee = false then .error .EnvironmentNotDebuggee
  else if e.isProxy then .error .DebuggeeWouldRun
  else .ok (e.bindings.map Prod.fst)

/-- Modelled from the spec: the body of Environment::get_type (lib.rs
187-194) is unimplemented. Per its doc comment it returns the type of the
wrapped environment, and EnvironmentNotDebuggee when the environment is
not a debuggee environment. -/
def Environment.get_type (e : EnvironmentState) : Fallible EnvironmentType :=
  if e.debuggee = false then .error .EnvironmentNotDebuggee
  else .ok e.envType

/-- The PopHandler trait object (lib.rs 224-227) modelled as the function
its handle method denotes, from the natural completion of the popped frame
to a resumption value. The frame argument of handle is elided: the claims
do not depend on it, and including it would make the frame state type
recursive. -/
def PopHandlerM := CompletionValue → ResumptionValue

/-- The state of a wrapped stack frame (the Frame struct, lib.rs 235).
The fields are the observables that the Frame doc comments describe:
liveness (lib.rs 300-304), whether it is a debuggee frame (lib.rs
261-263), its environment, script and bytecode offset, its type,
implementation tier and this value, the registered pop handler, and the
outcome the engine would produce for an eval in this frame (the engine is
an external black box per section 1 of the spec). -/
structure FrameState where
  live : Bool
  isDebuggee : Bool
  envData : EnvironmentState
  scriptData : Nat
  offsetData : Nat
  frameType : FrameType
  tier : FrameImplementation
  thisVal : Value
  popHandler : Option PopHandlerM
  evalOutcome : String → CompletionValue
  evalWithBindingsOutcome : String → List (String × Value) → CompletionValue

/-- Frame::is_live (lib.rs 300-304): whether the wrapped frame is still on
the stack. -/
def Frame.is_live (f : FrameState) : Bool :=
  f.live

/-- Modelled from the spec: the body of Frame::environment (lib.rs
261-266) is unimplemented. Per its doc comment it returns None when the
frame is not a debuggee frame, and per spec sections 3 and 4.3 a frame is
valid only while live, accessors degrading to None on a non-live frame. -/
def Frame.environment (f : FrameState) : Option EnvironmentState :=
  if f.live && f.isDebuggee then some f.envData else none

/-- Modelled from the spec: the body of Frame::offset (lib.rs 306-311) is
unimplemented; same None contract as Frame.environment. -/
def Frame.offset (f : FrameState) : Option Nat :=
  if f.live && f.isDebuggee then some f.offsetData else none

/-- Modelled from the spec: the body of Frame::script (lib.rs 331-336) is
unimplemented; same None contract as Frame.environment. The script is
identified by a numeric id. -/
def Frame.script (f : FrameState) : Option Nat :=
  if f.live && f.isDebuggee then some f.scriptData else none

/-- Frame::eval (lib.rs 268-276). The signature in the source returns a
bare CompletionValue, so the embedding is a total function into
CompletionValue; the completion itself comes from the external engine,
recorded in the frame state. -/
def Frame.eval (f : FrameState) (code : String) : CompletionValue :=
  f.evalOutcome code

/-- Frame::eval_with_bindings (lib.rs 278-288). As with Frame.eval, the
source signature returns a bare CompletionValue. The bindings map is an
association list of names to values. -/
def Frame.eval_with_bindings (f : FrameState) (code : String)
    (bindings : List (String × Value)) : CompletionValue :=
  f.evalWithBindingsOutcome code bindings

/-- Modelled from the spec: Frame::this (lib.rs 355-359). The signature
returns a plain Value, so absence cannot be signalled; on a call frame the
this value of the call is returned, and on any other frame the result
must still be a Value, taken to be Undefined. -/
def Frame.this (f : FrameState) : Value :=
  match f.frameType with
  | .Call => f.thisVal
  | _ => .Undefined

/-- Frame::set_pop_handler (lib.rs 338-344): replaces the pop handler of
the wrapped frame, or clears it when given none. -/
def Frame.set_pop_handler (f : FrameState) (handler : Option PopHandlerM) : FrameState :=
  ⟨f.live, f.isDebuggee, f.envData, f.scriptData, f.offsetData, f.frameType,
    f.tier, f.thisVal, handler, f.evalOutcome, f.evalWithBindingsOutcome⟩

/-- The frame after it has been popped off the stack: no longer live. -/
def Frame.markDead (f : FrameState) : FrameState :=
  ⟨false, f.isDebuggee, f.envData, f.scriptData, f.offsetData, f.frameType,
    f.tier, f.thisVal, f.popHandler, f.evalOutcome, f.evalWithBindingsOutcome⟩

/-- Modelled from the spec: the pop event (spec sections 4.3 and 8). When
a live frame is popped with natural completion c, its pop handler, if
registered, is invoked exactly once with c, and a some result from the
handler replaces the completion the caller observes; with no handler, or
on a frame that is no longer live, no handler runs. Returns the list of
completions the handler was invoked with, the completion the caller
observes, and the frame state afterwards. -/
def Frame.pop (f : FrameState) (natural : CompletionValue) :
    List CompletionValue × CompletionValue × FrameState :=
  if f.live then
    match f.popHandler with
    | some h => ⟨[natural], (h natural).getD natural, Frame.markDead f⟩
    | none => ⟨[], natural, Frame.markDead f⟩
  else ⟨[], natural, f⟩

/-- A frame history, one state per instant. Liveness is monotone: a frame
popped off the stack never becomes live again (spec section 3: a Frame
exists only while on the stack). -/
def liveMonotone (tr : Nat → FrameState) : Prop :=
  ∀ i j, i ≤ j → Frame.is_live (tr j) = true → Frame.is_live (tr i) = true

/-- The attributes of one concrete property of a debuggee object, the
state that PropertyDescriptor updates act on (lib.rs 362-393). -/
structure PropAttrs where
  configurable : Bool
  writable : Bool
  value : Value

/-- The PropertyDescriptor struct from lib.rs 370-393: zero or more
optional attributes. -/
structure PropertyDescriptor where
  configurable : Option Bool
  enumerable : Option Bool
  writable : Option Bool
  value : Option Value
  get : Option Value
  set : Option Value

/-- The attributes a descriptor defines, its optional fields replaced by
the defaults stated in lib.rs 370-393 (false and Undefined). -/
def PropertyDescriptor.toAttrs (d : PropertyDescriptor) : PropAttrs :=
  ⟨d.configurable.getD false, d.writable.getD false, d.value.getD .Undefined⟩

/-- The state of a wrapped debuggee object (the Object struct, lib.rs
396): whether it is a proxy (the DebuggeeWouldRun cases), whether it is
callable, whether it is extensible, and its named properties. -/
structure ObjectState where
  isProxy : Bool
  callable : Bool
  extensible : Bool
  props : List (String × PropAttrs)

/-- Replace the attributes of the named property. -/
def updateProp (props : List (String × PropAttrs)) (name : String) (a : PropAttrs) :
    List (String × PropAttrs) :=
  props.map fun p => if p.1 = name then (p.1, a) else p

/-- Modelled from the spec: the body of Object::define_property (lib.rs
459-475) is unimplemented. Per its doc comment: DebuggeeWouldRun when the
object is a proxy; for an existing property, PropertyNotConfigurable when
the property is not configurable, otherwise the property is modified; for
a new property, ObjectNotExtensible when the object is not extensible,
otherwise the property is added. -/
def Object.define_property (o : ObjectState) (name : String) (d : PropertyDescriptor) :
    Fallible ObjectState :=
  if o.isProxy then .error .DebuggeeWouldRun
  else
    match mapFind name o.props with
    | some a =>
      if a.configurable then
        .ok ⟨o.isProxy, o.callable, o.extensible, updateProp o.props name d.toAttrs⟩
      else .error .PropertyNotConfigurable
    | none =>
      if o.extensible then
        .ok ⟨o.isProxy, o.callable, o.extensible, o.props ++ [(name, d.toAttrs)]⟩
      else .error .ObjectNotExtensible

/-- Modelled from the spec: the body of Object::freeze (lib.rs 519-527) is
unimplemented. Per its doc comment it prevents extensions on the object
and makes all its properties non-configurable and non-writable, failing
with DebuggeeWouldRun when the object is a proxy. -/
def Object.freeze (o : ObjectState) : Fallible ObjectState :=
  if o.isProxy then .error .DebuggeeWouldRun
  else
    .ok ⟨o.isProxy, o.callable, false,
      o.props.map fun p => (p.1, ⟨false, false, p.2.value⟩)⟩

/-- Modelled from the spec: the body of Object::is_frozen (lib.rs 587-596)
is unimplemented. Per its doc comment it reports whether the object is not
extensible with all properties non-configurable and non-writable, failing
with DebuggeeWouldRun when the object is a proxy. -/
def Object.is_frozen (o : ObjectState) : Fallible Bool :=
  if o.isProxy then .error .DebuggeeWouldRun
  else .ok (!o.extensible && o.props.all fun p => !p.2.configurable && !p.2.writable)

/-- The state of a wrapped compiled script (the Script struct, lib.rs
654): its valid bytecode offsets (instruction boundaries) and its
breakpoint table, keyed by offset, each offset mapping to the ordered list
of registered handlers. Handlers are identified by numeric ids, modelling
the shared handler references of the source. -/
structure ScriptState where
  validOffsets : List Nat
  breakpoints : List (Nat × List Nat)

/-- Well-formedness of a script state: every offset with an entry in the
breakpoint table is a valid offset of the script (breakpoints can only be
set at valid offsets). -/
def ScriptState.wf (s : ScriptState) : Bool :=
  s.breakpoints.all fun p => decide (p.1 ∈ s.validOffsets)

/-- Script::get_breakpoints (lib.rs 683-691). The source signature returns
a bare Vec of handlers, so the embedding is total: the current handler
list at the offset, empty when the table has no entry there. -/
def Script.get_breakpoints (s : ScriptState) (offset : Nat) : List Nat :=
  (mapFind offset s.breakpoints).getD []

/-- Append a handler to the list at the given offset of the breakpoint
table, creating the entry when absent. -/
def insertAppend (bps : List (Nat × List Nat)) (offset handler : Nat) :
    List (Nat × List Nat) :=
  match bps with
  | [] => [(offset, [handler])]
  | (k, l) :: rest =>
    if k = offset then (k, l ++ [handler]) :: rest
    else (k, l) :: insertAppend rest offset handler

/-- Modelled from the spec: the body of Script::set_breakpoint (lib.rs
715-724) is unimplemented. Per its doc comment it fails with
OffsetNotValid when the offset is not a valid offset of the script, and
per spec section 4.5 a valid offset appends the handler to the ordered
handler list at that offset. -/
def Script.set_breakpoint (s : ScriptState) (offset handler : Nat) : Fallible ScriptState :=
  if offset ∈ s.validOffsets then
    .ok ⟨s.validOffsets, insertAppend s.breakpoints offset handler⟩
  else .error .OffsetNotValid

/-- Modelled from the spec: the body of Script::clear_all_breakpoints
(lib.rs 656-660) is unimplemented. Per its doc comment it clears all the
breakpoints in the script. -/
def Script.clear_all_breakpoints (s : ScriptState) : ScriptState :=
  ⟨s.validOffsets, []⟩

/-- A concrete inspectable, non-proxy environment binding x to Undefined. -/
def envBoundUndef : EnvironmentState :=
  ⟨true, false, .Declarative, [("x", .Undefined)]⟩

/-- A concrete inspectable, non-proxy environment binding y to Null. -/
def envOther : EnvironmentState :=
  ⟨true, false, .Declarative, [("y", .Null)]⟩

/-- A concrete debuggee environment. -/
def envDebuggee : EnvironmentState :=
  ⟨true, false, .Declarative, []⟩

/-- A concrete non-debuggee environment. -/
def envForeign : EnvironmentState :=
  ⟨false, false, .Declarative, []⟩

/-- A concrete frame that is no longer live. -/
def deadFrameEx : FrameState :=
  ⟨false, true, envDebuggee, 0, 0, .Call, .Interpreter, .Undefined, none,
    fun _ => .Terminate, fun _ _ => .Terminate⟩

/-- A concrete pop handler that forces a Throw of Null. -/
def throwHandlerEx : PopHandlerM :=
  fun _ => some (.Throw .Null)

/-- A concrete live call frame carrying throwHandlerEx as pop handler. -/
def liveFrameEx : FrameState :=
  ⟨true, true, envDebuggee, 0, 0, .Call, .Interpreter, .Undefined,
    some throwHandlerEx, fun _ => .Terminate, fun _ _ => .Terminate⟩

/-- A concrete live frame that is not a call frame. -/
def globalFrameEx : FrameState :=
  ⟨true, true, envDebuggee, 0, 0, .Global, .Interpreter, .Undefined, none,
    fun _ => .Terminate, fun _ _ => .Terminate⟩

/-- A concrete non-proxy, extensible object with one configurable
property. -/
def objEx : ObjectState :=
  ⟨false, false, true, [("p", ⟨true, true, .Null⟩)]⟩

/-- The state of objEx after Object.freeze. -/
def frozenObjEx : ObjectState :=
  ⟨false, false, false, [("p", ⟨false, false, .Null⟩)]⟩

/-- A descriptor with every attribute left unspecified. -/
def emptyDescriptor : PropertyDescriptor :=
  ⟨none, none, none, none, none, none⟩

/-- A concrete script with valid offsets 0 and 5 and one handler (id 1)
registered at offset 0. -/
def scriptEx : ScriptState :=
  ⟨[0, 5], [(0, [1])]⟩

/-- A successful mapFind locates an entry of the list. -/
theorem mapFind_mem {α β : Type} [DecidableEq α] {key : α} {v : β} :
    ∀ {l : List (α × β)}, mapFind key l = some v → (key, v) ∈ l := by
  intro l
  induction l with
  | nil => intro h; simp [mapFind] at h
  | cons p rest ih =>
    intro h
    rcases p with ⟨k, w⟩
    simp only [mapFind] at h
    by_cases hk : k = key
    · rw [if_pos hk] at h
      cases h
      subst hk
      exact List.mem_cons_self _ _
    · rw [if_neg hk] at h
      exact List.mem_cons_of_mem _ (ih h)

/-- mapFind misses exactly the keys outside the key list. -/
theorem mapFind_eq_none_of_not_mem_keys {α β : Type} [DecidableEq α] {key : α} :
    ∀ {l : List (α × β)}, key ∉ l.map Prod.fst → mapFind key l = none := by
  intro l
  induction l with
  | nil => intro _; rfl
  | cons p rest ih =>
    intro h
    simp only [List.map_cons, List.mem_cons] at h
    push_neg at h
    simp only [mapFind]
    rw [if_neg fun he => h.1 he.symm]
    exact ih h.2

/-- Looking up the offset just appended to finds the extended handler
list. -/
theorem mapFind_insertAppend (bps : List (Nat × List Nat)) (offset handler : Nat) :
    mapFind offset (insertAppend bps offset handler) =
      some ((mapFind offset bps).getD [] ++ [handler]) := by
  induction bps with
  | nil => simp [insertAppend, mapFind]
  | cons p rest ih =>
    rcases p with ⟨k, l⟩
    by_cases hk : k = offset
    · subst hk
      simp [insertAppend, mapFind]
    · simp [insertAppend, mapFind, hk, ih]

/-- After freezing, every stored property is non-configurable and
non-writable. -/
theorem all_frozen_props (l : List (String × PropAttrs)) :
    ((l.map fun p => (p.1, (⟨false, false, p.2.value⟩ : PropAttrs))).all
      fun p => !p.2.configurable && !p.2.writable) = true := by
  induction l with
  | nil => rfl
  | cons p rest ih => simp [ih]

/-- C1: the claim states that the Error type exposed by the API has
exactly nine kinds, among them ObjectNotCallable, and that Object.call
and Object.construct fail with Error.ObjectNotCallable on a non-callable
object. The Error enum declared in the source has exactly eight kinds,
none of them ObjectNotCallable, so no method can produce that error: the
nine-kind spec taxonomy does not even embed injectively into the source
taxonomy. -/
theorem c1_error_enum_has_eight_kinds :
    Fintype.card Error = 8 ∧ Fintype.card ErrorSpec = 9 ∧
    ¬ ∃ f : ErrorSpec → Error, Function.Injective f := by
  refine ⟨by decide, by decide, ?_⟩
  rintro ⟨f, hf⟩
  have h := Fintype.card_le_of_injective f hf
  have h8 : Fintype.card Error = 8 := by decide
  have h9 : Fintype.card ErrorSpec = 9 := by decide
  omega

/-- C2: the claim states that Frame.eval and Frame.eval_with_bindings
fail with FrameNotDebuggee on a non-debuggee frame. The source signatures
return a bare CompletionValue with no error channel, so every result is a
Return, a Throw or Terminate; no Error, in particular FrameNotDebuggee,
can ever be produced, contradicting the documented error of lib.rs
271-273 and 283-285. -/
theorem c2_eval_has_no_error_channel (f : FrameState) (code : String)
    (bindings : List (String × Value)) :
    ((∃ v, Frame.eval f code = .Return v) ∨ (∃ v, Frame.eval f code = .Throw v) ∨
      Frame.eval f code = .Terminate) ∧
    ((∃ v, Frame.eval_with_bindings f code bindings = .Return v) ∨
      (∃ v, Frame.eval_with_bindings f code bindings = .Throw v) ∨
      Frame.eval_with_bindings f code bindings = .Terminate) := by
  constructor
  · cases h : Frame.eval f code with
    | Return v => exact Or.inl ⟨v, rfl⟩
    | Throw v => exact Or.inr (Or.inl ⟨v, rfl⟩)
    | Terminate => exact Or.inr (Or.inr rfl)
  · cases h : Frame.eval_with_bindings f code bindings with
    | Return v => exact Or.inl ⟨v, rfl⟩
    | Throw v => exact Or.inr (Or.inl ⟨v, rfl⟩)
    | Terminate => exact Or.inr (Or.inr rfl)

/-- C3 counterexample: in the inspectable, non-proxy environment that
binds x to the value Undefined, get_variable on x returns Undefined even
though x is among the names, refuting the claimed equivalence between
reading Undefined and the name being absent from names(). -/
theorem c3_claim_false_at_undefined_binding :
    envBoundUndef.debuggee = true ∧ envBoundUndef.isProxy = false ∧
    Environment.names envBoundUndef = .ok ["x"] ∧
    ¬ (Environment.get_variable envBoundUndef "x" = .ok .Undefined ↔ "x" ∉ ["x"]) := by
  refine ⟨rfl, rfl, rfl, ?_⟩
  intro hiff
  have h1 : Environment.get_variable envBoundUndef "x" = .ok .Undefined := rfl
  exact (hiff.mp h1) (List.mem_singleton.mpr rfl)

/-- C3 (amended): for every inspectable, non-proxy environment, if a name
is not among the names returned by names(), then get_variable on that
name returns the value Undefined, never an Error; the converse
implication does not hold, since a variable bound to Undefined also reads
as Undefined. -/
theorem c3_absent_name_reads_undefined (e : EnvironmentState) (ns : List String)
    (name : String) (hdbg : e.debuggee = true) (hpx : e.isProxy = false)
    (hns : Environment.names e = .ok ns) (habs : name ∉ ns) :
    Environment.get_variable e name = .ok .Undefined := by
  have hns' : e.bindings.map Prod.fst = ns := by
    simpa [Environment.names, hdbg, hpx] using hns
  have hnone : mapFind name e.bindings = none := by
    apply mapFind_eq_none_of_not_mem_keys
    rw [hns']
    exact habs
  simp [Environment.get_variable, hdbg, hpx, hnone]

/-- C3 witness: the amended theorem applied to the concrete environment
binding only y, at the absent name x. -/
theorem c3_absent_name_reads_undefined_witness :
    envOther.debuggee = true ∧ envOther.isProxy = false ∧
    Environment.names envOther = .ok ["y"] ∧ "x" ∉ ["y"] ∧
    Environment.get_variable envOther "x" = .ok .Undefined :=
  ⟨rfl, rfl, rfl, by decide,
    c3_absent_name_reads_undefined envOther ["y"] "x" rfl rfl rfl (by decide)⟩

/-- C4: for every frame history with monotone liveness, once is_live is
false at some instant, every later call to environment, offset and script
returns None. -/
theorem c4_dead_frame_accessors_return_none (tr : Nat → FrameState)
    (hmono : liveMonotone tr) (t u : Nat) (htu : t ≤ u)
    (hdead : Frame.is_live (tr t) = false) :
    Frame.environment (tr u) = none ∧ Frame.offset (tr u) = none ∧
      Frame.script (tr u) = none := by
  have hu : (tr u).live = false := by
    cases hl : (tr u).live
    · rfl
    · have h2 := hmono t u htu hl
      rw [Frame.is_live] at h2
      rw [Frame.is_live] at hdead
      rw [hdead] at h2
      simp at h2
  refine ⟨?_, ?_, ?_⟩ <;> simp [Frame.environment, Frame.offset, Frame.script, hu]

/-- C4 witness: the theorem applied to the constant history at the
concrete dead frame. -/
theorem c4_dead_frame_accessors_return_none_witness :
    liveMonotone (fun _ => deadFrameEx) ∧ Frame.is_live deadFrameEx = false ∧
    (Frame.environment deadFrameEx = none ∧ Frame.offset deadFrameEx = none ∧
      Frame.script deadFrameEx = none) :=
  ⟨fun _ _ _ h => h, rfl,
    c4_dead_frame_accessors_return_none (fun _ => deadFrameEx)
      (fun _ _ _ h => h) 0 1 (Nat.zero_le 1) rfl⟩

/-- C5: for every well-formed script state, get_breakpoints is total (its
result is a plain handler list, never an error): at an invalid offset it
returns the empty list, and at any offset with a registered entry it
returns exactly the current handler list of that entry. -/
theorem c5_get_breakpoints_never_errors (s : ScriptState)
    (hwf : ScriptState.wf s = true) (offset : Nat)
    (hinv : offset ∉ s.validOffsets) :
    Script.get_breakpoints s offset = [] ∧
    (∀ o l, mapFind o s.breakpoints = some l → Script.get_breakpoints s o = l) := by
  constructor
  · have hnone : mapFind offset s.breakpoints = none := by
      cases hm : mapFind offset s.breakpoints with
      | none => rfl
      | some l =>
        have hmem := mapFind_mem hm
        have hall := List.all_eq_true.mp hwf _ hmem
        exact absurd (of_decide_eq_true hall) hinv
    simp [Script.get_breakpoints, hnone]
  · intro o l hm
    simp [Script.get_breakpoints, hm]

/-- C5 witness: the theorem applied to the concrete script at the invalid
offset 7. -/
theorem c5_get_breakpoints_never_errors_witness :
    ScriptState.wf scriptEx = true ∧ (7 : Nat) ∉ scriptEx.validOffsets ∧
    (Script.get_breakpoints scriptEx 7 = [] ∧
      (∀ o l, mapFind o scriptEx.breakpoints = some l →
        Script.get_breakpoints scriptEx o = l)) :=
  ⟨by decide, by decide,
    c5_get_breakpoints_never_errors scriptEx (by decide) 7 (by decide)⟩

/-- C6: set_breakpoint at an invalid offset fails with OffsetNotValid; at
a valid offset it succeeds and appends the handler to the ordered handler
list of that offset, so that get_breakpoints subsequently includes it;
and clear_all_breakpoints empties the handler list of every offset. -/
theorem c6_breakpoint_lifecycle (s : ScriptState) (off bad handler : Nat)
    (hval : off ∈ s.validOffsets) (hbad : bad ∉ s.validOffsets) :
    Script.set_breakpoint s bad handler = .error .OffsetNotValid ∧
    (∃ s', Script.set_breakpoint s off handler = .ok s' ∧
      Script.get_breakpoints s' off = Script.get_breakpoints s off ++ [handler] ∧
      handler ∈ Script.get_breakpoints s' off ∧
      (∀ o2, Script.get_breakpoints (Script.clear_all_breakpoints s') o2 = [])) := by
  refine ⟨by simp [Script.set_breakpoint, hbad], ?_⟩
  refine ⟨⟨s.validOffsets, insertAppend s.breakpoints off handler⟩,
    by simp [Script.set_breakpoint, hval], ?_, ?_, ?_⟩
  · simp [Script.get_breakpoints, mapFind_insertAppend]
  · simp [Script.get_breakpoints, mapFind_insertAppend]
  · intro o2
    simp [Script.clear_all_breakpoints, Script.get_breakpoints, mapFind]

/-- C6 witness: the theorem applied to the concrete script, with valid
offset 0, invalid offset 7 and handler id 2. -/
theorem c6_breakpoint_lifecycle_witness :
    (0 : Nat) ∈ scriptEx.validOffsets ∧ (7 : Nat) ∉ scriptEx.validOffsets ∧
    (Script.set_breakpoint scriptEx 7 2 = .error .OffsetNotValid ∧
      (∃ s', Script.set_breakpoint scriptEx 0 2 = .ok s' ∧
        Script.get_breakpoints s' 0 = Script.get_breakpoints scriptEx 0 ++ [2] ∧
        2 ∈ Script.get_breakpoints s' 0 ∧
        (∀ o2, Script.get_breakpoints (Script.clear_all_breakpoints s') o2 = []))) :=
  ⟨by decide, by decide,
    c6_breakpoint_lifecycle scriptEx 0 7 2 (by decide) (by decide)⟩

/-- C7: the claim states that is_inspectable reports whether the wrapped
environment is a debuggee environment and is the gate the other methods
apply, failing with EnvironmentNotDebuggee exactly when it is false. The
modelled per-environment gate does behave that way (middle conjunct, shown
for get_type, get_variable and names), but the source is_inspectable takes
no self parameter, so no function of its signature can report the
debuggee-ness of both of two environments that differ in it: the declared
is_inspectable cannot be the per-environment gate predicate. -/
theorem c7_is_inspectable_takes_no_self :
    Environment.get_type envDebuggee = .ok .Declarative ∧
    Environment.get_type envForeign = .error .EnvironmentNotDebuggee ∧
    (∀ (e : EnvironmentState) (name : String),
      (Environment.get_type e = .error .EnvironmentNotDebuggee ↔
        Environment.inspectable e = false) ∧
      (Environment.get_variable e name = .error .EnvironmentNotDebuggee ↔
        Environment.inspectable e = false) ∧
      (Environment.names e = .error .EnvironmentNotDebuggee ↔
        Environment.inspectable e = false)) ∧
    ¬ ∃ g : Unit → Bool,
        g () = Environment.inspectable envDebuggee ∧
        g () = Environment.inspectable envForeign := by
  refine ⟨rfl, rfl, ?_, ?_⟩
  · intro e name
    by_cases hd : e.debuggee = false
    · simp [Environment.get_type, Environment.get_variable, Environment.names,
        Environment.inspectable, hd]
    · have hd' : e.debuggee = true := by
        cases h : e.debuggee
        · exact absurd h hd
        · rfl
      by_cases hp : e.isProxy
      · simp [Environment.get_type, Environment.get_variable, Environment.names,
          Environment.inspectable, hd', hp]
      · cases hm : mapFind name e.bindings <;>
          simp [Environment.get_type, Environment.get_variable, Environment.names,
            Environment.inspectable, hd', hp, hm]
  · rintro ⟨g, h1, h2⟩
    rw [h1] at h2
    exact absurd h2 (by decide)

/-- C8: popping a live frame whose pop handler is registered invokes the
handler exactly once with the natural completion Return v; when the
handler answers some (Throw w), the caller observes Throw w instead of
Return v; and the handler is never invoked after it has been cleared with
set_pop_handler none, nor on a frame that is no longer live. -/
theorem c8_pop_handler_contract (f : FrameState) (hdl : PopHandlerM) (v w : Value)
    (hlive : Frame.is_live f = true) (hset : f.popHandler = some hdl)
    (hthrow : hdl (.Return v) = some (.Throw w)) :
    (Frame.pop f (.Return v)).1 = [.Return v] ∧
    (Frame.pop f (.Return v)).2.1 = .Throw w ∧
    (Frame.pop (Frame.set_pop_handler f none) (.Return v)).1 = [] ∧
    (∀ g : FrameState, Frame.is_live g = false → (Frame.pop g (.Return v)).1 = []) := by
  rw [Frame.is_live] at hlive
  refine ⟨?_, ?_, ?_, ?_⟩
  · simp [Frame.pop, hlive, hset]
  · simp [Frame.pop, hlive, hset, hthrow]
  · simp [Frame.pop, Frame.set_pop_handler, hlive]
  · intro g hg
    rw [Frame.is_live] at hg
    simp [Frame.pop, hg]

/-- C8 witness: the theorem applied to the concrete live frame carrying
the concrete throwing handler, returning Undefined. -/
theorem c8_pop_handler_contract_witness :
    Frame.is_live liveFrameEx = true ∧
    liveFrameEx.popHandler = some throwHandlerEx ∧
    throwHandlerEx (.Return .Undefined) = some (.Throw .Null) ∧
    ((Frame.pop liveFrameEx (.Return .Undefined)).1 = [.Return .Undefined] ∧
      (Frame.pop liveFrameEx (.Return .Undefined)).2.1 = .Throw .Null ∧
      (Frame.pop (Frame.set_pop_handler liveFrameEx none) (.Return .Undefined)).1 = [] ∧
      (∀ g : FrameState, Frame.is_live g = false →
        (Frame.pop g (.Return .Undefined)).1 = [])) :=
  ⟨rfl, rfl, rfl,
    c8_pop_handler_contract liveFrameEx throwHandlerEx .Undefined .Null rfl rfl rfl⟩

/-- C9: for every non-proxy object, after freeze succeeds is_frozen
reports true, and every subsequent define_property on the frozen object
fails, with PropertyNotConfigurable for an existing property and
ObjectNotExtensible for a new one. -/
theorem c9_freeze_then_define_property_fails (o o' : ObjectState) (name : String)
    (d : PropertyDescriptor) (hpx : o.isProxy = false)
    (hfr : Object.freeze o = .ok o') :
    Object.is_frozen o' = .ok true ∧
    (Object.define_property o' name d = .error .PropertyNotConfigurable ∨
      Object.define_property o' name d = .error .ObjectNotExtensible) := by
  have ho' : o' = ⟨false, o.callable, false,
      o.props.map fun p => (p.1, ⟨false, false, p.2.value⟩)⟩ := by
    have := hfr
    simp [Object.freeze, hpx] at this
    exact this.symm
  subst ho'
  constructor
  · simp [Object.is_frozen, hpx, all_frozen_props]
  · cases hm : mapFind name (o.props.map fun p =>
        (p.1, (⟨false, false, p.2.value⟩ : PropAttrs))) with
    | none =>
      right
      simp [Object.define_property, hpx, hm]
    | some a =>
      left
      have hmem := mapFind_mem hm
      rcases List.mem_map.mp hmem with ⟨p, _, hpe⟩
      have h2 : (⟨false, false, p.2.value⟩ : PropAttrs) = a :=
        congrArg Prod.snd hpe
      have hconf : a.configurable = false := by
        rw [← h2]
      simp [Object.define_property, hpx, hm, hconf]

/-- C9 witness: the theorem applied to the concrete object and its frozen
state, redefining the existing property p with the empty descriptor. -/
theorem c9_freeze_then_define_property_fails_witness :
    objEx.isProxy = false ∧ Object.freeze objEx = .ok frozenObjEx ∧
    (Object.is_frozen frozenObjEx = .ok true ∧
      (Object.define_property frozenObjEx "p" emptyDescriptor =
          .error .PropertyNotConfigurable ∨
        Object.define_property frozenObjEx "p" emptyDescriptor =
          .error .ObjectNotExtensible)) :=
  ⟨rfl, rfl,
    c9_freeze_then_define_property_fails objEx frozenObjEx "p" emptyDescriptor rfl rfl⟩

/-- C10: Frame.this is total, as the source signature dictates: on every
frame, call frame or not, it returns a Value, and on a non-call frame the
result is the Value Undefined, since the plain Value return type offers no
None and no error through which absence could be observed. -/
theorem c10_this_returns_a_value (f : FrameState) :
    (∃ v : Value, Frame.this f = v) ∧
    (f.frameType ≠ .Call → Frame.this f = .Undefined) := by
  refine ⟨⟨Frame.this f, rfl⟩, ?_⟩
  intro hnc
  cases hft : f.frameType with
  | Call => exact absurd hft hnc
  | Eval => simp [Frame.this, hft]
  | Global => simp [Frame.this, hft]
  | Module => simp [Frame.this, hft]

/-- C10 witness: the theorem applied to the concrete non-call frame. -/
theorem c10_this_returns_a_value_witness :
    globalFrameEx.frameType ≠ .Call ∧
    ((∃ v : Value, Frame.this globalFrameEx = v) ∧
      (globalFrameEx.frameType ≠ .Call → Frame.this globalFrameEx = .Undefined)) :=
  ⟨by decide, c10_this_returns_a_value globalFrameEx⟩

end DebuggerApi
